import Mathlib

/-!
Verification of the night-battery-charger decision engine.

The four pure domain modules of the integration are shallowly embedded here:
- `domain/planner.py` (ChargePlanner),
- `domain/ev_manager.py` (EVManager),
- `domain/forecaster.py` (ConsumptionForecaster),
- `domain/savings_calculator.py` (SavingsCalculator).

Modelling conventions:
- Python floats are modelled as rationals (ℚ); all the arithmetic in these
  modules is plain field arithmetic, min/max clamping and comparisons.
- A Python `datetime.time` value (used only for the charging-window check,
  which compares times values directly) is modelled as the number of seconds
  since midnight (ℕ); `datetime.time` ordering coincides with that number.
- A Python `datetime` used only through subtraction and `timedelta`
  comparison (EV timeout, power-reading integration) is modelled as an
  absolute timestamp in seconds (ℚ).
- A Python `date` used by the forecaster is modelled as a proleptic day
  ordinal (ℤ): `d - timedelta(days=1)` is `d - 1`, `d.weekday()` is
  `(d % 7).toNat` (choosing the epoch so that day 0 is a Monday), and the
  ISO date strings stored and sorted by the forecaster compare exactly like
  the day ordinals do.
- A Python `date` used by the savings calculator is modelled as a
  year/month/day triple; ISO strings of such dates compare lexicographically,
  i.e. like the triple ordering, and the month token `"%Y-%m"` is the
  year/month pair (with `none` standing for the initial empty string).
- Dictionaries produced by `to_dict`/consumed by `from_dict` are modelled as
  structures with `Option` fields; `data.get(key, default)` is `field.getD
  default`.
-/

/-! ### `domain/planner.py` -/

/-- Input data for plan calculation (`PlanningInput`). The Python defaults
(`ev_energy_kwh=0`, flags false) are irrelevant here since every theorem
quantifies over all fields. -/
structure PlanningInput where
  current_soc_percent : ℚ
  battery_capacity_kwh : ℚ
  min_soc_reserve_percent : ℚ
  safety_spread_percent : ℚ
  consumption_forecast_kwh : ℚ
  solar_forecast_kwh : ℚ
  ev_energy_kwh : ℚ
  force_charge : Bool
  disable_charge : Bool
  is_preview : Bool
deriving Repr, DecidableEq

/-- Result of plan calculation (`PlanningResult`). The human-readable
`reasoning` string is omitted: it is presentation only and no claim
mentions it. -/
structure PlanningResult where
  target_soc_percent : ℚ
  planned_charge_kwh : ℚ
  is_charging_scheduled : Bool
  load_forecast_kwh : ℚ
  solar_forecast_kwh : ℚ
  current_energy_kwh : ℚ
  target_energy_kwh : ℚ
  reserve_energy_kwh : ℚ
  net_load_on_battery_kwh : ℚ
deriving Repr, DecidableEq

/-- `ChargePlanner.calculate` from `domain/planner.py`, steps 1-10. -/
def ChargePlanner.calculate (i : PlanningInput) : PlanningResult :=
  let current_energy := i.current_soc_percent / 100 * i.battery_capacity_kwh
  let reserve_energy := i.min_soc_reserve_percent / 100 * i.battery_capacity_kwh
  let total_load := i.consumption_forecast_kwh + i.ev_energy_kwh
  let net_load_on_battery := total_load - i.solar_forecast_kwh
  let base_target := reserve_energy + max 0 net_load_on_battery
  let target_with_safety := base_target * (1 + i.safety_spread_percent / 100)
  let target_soc_percent :=
    min 100 (max i.min_soc_reserve_percent
      (target_with_safety / i.battery_capacity_kwh * 100))
  let target_energy := target_soc_percent / 100 * i.battery_capacity_kwh
  let needed_kwh := max 0 (target_energy - current_energy)
  if i.disable_charge then
    { target_soc_percent := target_soc_percent
      planned_charge_kwh := 0
      is_charging_scheduled := false
      load_forecast_kwh := i.consumption_forecast_kwh
      solar_forecast_kwh := i.solar_forecast_kwh
      current_energy_kwh := current_energy
      target_energy_kwh := target_energy
      reserve_energy_kwh := reserve_energy
      net_load_on_battery_kwh := net_load_on_battery }
  else if i.force_charge then
    { target_soc_percent := 100
      planned_charge_kwh := max 0 (i.battery_capacity_kwh - current_energy)
      is_charging_scheduled := true
      load_forecast_kwh := i.consumption_forecast_kwh
      solar_forecast_kwh := i.solar_forecast_kwh
      current_energy_kwh := current_energy
      target_energy_kwh := i.battery_capacity_kwh
      reserve_energy_kwh := reserve_energy
      net_load_on_battery_kwh := net_load_on_battery }
  else
    { target_soc_percent := target_soc_percent
      planned_charge_kwh := needed_kwh
      is_charging_scheduled := decide (0 < needed_kwh)
      load_forecast_kwh := i.consumption_forecast_kwh
      solar_forecast_kwh := i.solar_forecast_kwh
      current_energy_kwh := current_energy
      target_energy_kwh := target_energy
      reserve_energy_kwh := reserve_energy
      net_load_on_battery_kwh := net_load_on_battery }

/-- `ChargePlanner.calculate_energy_balance` from `domain/planner.py`,
returning the energy-balance dictionary as a structure. -/
structure EnergyBalance where
  battery_kwh : ℚ
  solar_kwh : ℚ
  consumption_kwh : ℚ
  ev_kwh : ℚ
  available : ℚ
  needed : ℚ
  needed_with_margin : ℚ
  sufficient : Bool
  deficit : ℚ
  surplus : ℚ
deriving Repr, DecidableEq

/-- `ChargePlanner.calculate_energy_balance`; the Python default for
`safety_margin` is `1.15`, passed explicitly here. -/
def ChargePlanner.calculate_energy_balance (battery_energy_kwh : ℚ)
    (solar_forecast_kwh : ℚ) (consumption_forecast_kwh : ℚ)
    (ev_energy_kwh : ℚ) (safety_margin : ℚ) : EnergyBalance :=
  let available := battery_energy_kwh + solar_forecast_kwh
  let needed := consumption_forecast_kwh + ev_energy_kwh
  let needed_with_margin := needed * safety_margin
  let sufficient := decide (available ≥ needed_with_margin)
  { battery_kwh := battery_energy_kwh
    solar_kwh := solar_forecast_kwh
    consumption_kwh := consumption_forecast_kwh
    ev_kwh := ev_energy_kwh
    available := available
    needed := needed
    needed_with_margin := needed_with_margin
    sufficient := sufficient
    deficit := max 0 (needed_with_margin - available)
    surplus := max 0 (available - needed_with_margin) }

/-- C1: for every PlanningInput with positive capacity and a reserve
percentage in [0, 100], the computed target SOC lies in
[min_soc_reserve_percent, 100], for every combination of forecasts, EV
energy and override flags. -/
theorem calculate_target_soc_in_range (i : PlanningInput)
    (hcap : 0 < i.battery_capacity_kwh)
    (hlo : 0 ≤ i.min_soc_reserve_percent)
    (hhi : i.min_soc_reserve_percent ≤ 100) :
    i.min_soc_reserve_percent ≤ (ChargePlanner.calculate i).target_soc_percent ∧
      (ChargePlanner.calculate i).target_soc_percent ≤ 100 := by
  unfold ChargePlanner.calculate
  dsimp only
  split
  · exact ⟨le_min hhi (le_max_left _ _), min_le_left _ _⟩
  · split
    · exact ⟨hhi, le_refl _⟩
    · exact ⟨le_min hhi (le_max_left _ _), min_le_left _ _⟩

/-- Witness for C1 at a concrete input. -/
theorem calculate_target_soc_in_range_witness :
    (0:ℚ) < 10 ∧ (0:ℚ) ≤ 15 ∧ (15:ℚ) ≤ 100 ∧
      ((15:ℚ) ≤ (ChargePlanner.calculate
          ⟨30, 10, 15, 10, 8, 3, 0, false, false, false⟩).target_soc_percent ∧
        (ChargePlanner.calculate
          ⟨30, 10, 15, 10, 8, 3, 0, false, false, false⟩).target_soc_percent ≤ 100) :=
  ⟨by norm_num, by norm_num, by norm_num,
    calculate_target_soc_in_range ⟨30, 10, 15, 10, 8, 3, 0, false, false, false⟩
      (by norm_num) (by norm_num) (by norm_num)⟩

/-- C2: `disable_charge` forces a zero plan and no scheduling even when
`force_charge` is also set; `force_charge` alone forces target SOC 100, a
plan of `max 0 (capacity - current_energy)` and scheduling. -/
theorem calculate_overrides (i : PlanningInput) :
    (i.disable_charge = true →
      (ChargePlanner.calculate i).planned_charge_kwh = 0 ∧
        (ChargePlanner.calculate i).is_charging_scheduled = false) ∧
    (i.force_charge = true → i.disable_charge = false →
      (ChargePlanner.calculate i).target_soc_percent = 100 ∧
        (ChargePlanner.calculate i).planned_charge_kwh =
          max 0 (i.battery_capacity_kwh -
            i.current_soc_percent / 100 * i.battery_capacity_kwh) ∧
        (ChargePlanner.calculate i).is_charging_scheduled = true) := by
  constructor
  · intro hd
    simp only [ChargePlanner.calculate, hd]
    exact ⟨rfl, rfl⟩
  · intro hf hd
    simp only [ChargePlanner.calculate, hd, hf]
    exact ⟨rfl, rfl, rfl⟩

/-- Witness for C2: the disable branch at a concrete input where force is
also set, and the force branch at a concrete input. -/
theorem calculate_overrides_witness :
    ((ChargePlanner.calculate
        ⟨20, 10, 15, 10, 8, 2, 0, true, true, false⟩).planned_charge_kwh = 0 ∧
      (ChargePlanner.calculate
        ⟨20, 10, 15, 10, 8, 2, 0, true, true, false⟩).is_charging_scheduled = false) ∧
    ((ChargePlanner.calculate
        ⟨80, 10, 15, 10, 8, 2, 0, true, false, false⟩).target_soc_percent = 100 ∧
      (ChargePlanner.calculate
        ⟨80, 10, 15, 10, 8, 2, 0, true, false, false⟩).planned_charge_kwh =
        max 0 ((10:ℚ) - 80 / 100 * 10) ∧
      (ChargePlanner.calculate
        ⟨80, 10, 15, 10, 8, 2, 0, true, false, false⟩).is_charging_scheduled = true) :=
  ⟨(calculate_overrides ⟨20, 10, 15, 10, 8, 2, 0, true, true, false⟩).1 rfl,
    (calculate_overrides ⟨80, 10, 15, 10, 8, 2, 0, true, false, false⟩).2 rfl rfl⟩

/-- C10: in every energy balance, sufficiency is equivalent to a zero
deficit, deficit and surplus are never both positive, and surplus minus
deficit equals available minus needed-with-margin. -/
theorem calculate_energy_balance_relations (b s c e m : ℚ) :
    ((ChargePlanner.calculate_energy_balance b s c e m).sufficient = true ↔
      (ChargePlanner.calculate_energy_balance b s c e m).deficit = 0) ∧
    ¬(0 < (ChargePlanner.calculate_energy_balance b s c e m).deficit ∧
        0 < (ChargePlanner.calculate_energy_balance b s c e m).surplus) ∧
    (ChargePlanner.calculate_energy_balance b s c e m).surplus -
        (ChargePlanner.calculate_energy_balance b s c e m).deficit =
      (ChargePlanner.calculate_energy_balance b s c e m).available -
        (ChargePlanner.calculate_energy_balance b s c e m).needed_with_margin := by
  simp only [ChargePlanner.calculate_energy_balance]
  rcases le_total ((c + e) * m) (b + s) with h | h
  · refine ⟨?_, ?_, ?_⟩
    · simp only [decide_eq_true_eq, ge_iff_le]
      constructor
      · intro _
        exact max_eq_left (by linarith)
      · intro _
        exact h
    · intro hc
      have := hc.1
      rw [max_eq_left (by linarith : (c + e) * m - (b + s) ≤ 0)] at this
      exact lt_irrefl 0 this
    · rw [max_eq_left (by linarith : (c + e) * m - (b + s) ≤ 0),
        max_eq_right (by linarith : (0:ℚ) ≤ b + s - (c + e) * m)]
      ring
  · by_cases heq : b + s = (c + e) * m
    · refine ⟨?_, ?_, ?_⟩
      · simp [heq]
      · intro hc
        have := hc.1
        rw [heq, sub_self, max_self] at this
        exact lt_irrefl 0 this
      · rw [heq]
        simp
    · have hlt : b + s < (c + e) * m := lt_of_le_of_ne h heq
      refine ⟨?_, ?_, ?_⟩
      · simp only [decide_eq_true_eq, ge_iff_le]
        constructor
        · intro hle
          exact absurd hle (not_le.mpr hlt)
        · intro h0
          rw [max_eq_right (by linarith : (0:ℚ) ≤ (c + e) * m - (b + s))] at h0
          linarith
      · intro hc
        have := hc.2
        rw [max_eq_left (by linarith : b + s - (c + e) * m ≤ 0)] at this
        exact lt_irrefl 0 this
      · rw [max_eq_right (by linarith : (0:ℚ) ≤ (c + e) * m - (b + s)),
          max_eq_left (by linarith : b + s - (c + e) * m ≤ 0)]
        ring

/-! ### `domain/ev_manager.py` -/

/-- `EVSetResult` from `domain/ev_manager.py`. -/
inductive EVSetResult where
  | PROCESSED
  | SAVED
  | RESET
deriving Repr, DecidableEq

/-- `EVDecision` from `domain/ev_manager.py`. -/
structure EVDecision where
  result : EVSetResult
  reason : String
  value : ℚ
  bypass_should_activate : Bool
  bypass_reason : String
  energy_balance : Option EnergyBalance
  is_timeout : Bool
deriving Repr, DecidableEq

/-- `EV_CHARGE_TIMEOUT_HOURS = 6`. -/
def EV_CHARGE_TIMEOUT_HOURS : ℚ := 6

/-- `CHARGING_WINDOW_START = time(0, 0)`, in seconds since midnight. -/
def CHARGING_WINDOW_START : ℕ := 0

/-- `CHARGING_WINDOW_END = time(7, 0)`, in seconds since midnight. -/
def CHARGING_WINDOW_END : ℕ := 7 * 3600

/-- `EVManager.validate_value`: clamp to [0, 200]. -/
def EVManager.validate_value (value : ℚ) : ℚ :=
  max 0 (min 200 value)

/-- `EVManager.is_in_charging_window`: `WINDOW_START <= t < WINDOW_END`. -/
def EVManager.is_in_charging_window (current_time : ℕ) : Bool :=
  decide (CHARGING_WINDOW_START ≤ current_time) &&
    decide (current_time < CHARGING_WINDOW_END)

/-- `EVManager.is_timeout_reached`: timer elapsed at least `timeout_hours`.
Subtraction of `datetime` values and `timedelta(hours=h)` comparison are
modelled on timestamps in seconds. -/
def EVManager.is_timeout_reached (timer_start : Option ℚ) (now : ℚ)
    (timeout_hours : ℚ) : Bool :=
  match timer_start with
  | none => false
  | some t => decide (now - t ≥ timeout_hours * 3600)

/-- `EVManager.should_activate_bypass`. -/
def EVManager.should_activate_bypass (energy_balance : EnergyBalance)
    (is_timeout : Bool) : Bool × String :=
  if is_timeout then
    (false, "timeout")
  else if energy_balance.sufficient then
    (false, "sufficient_energy")
  else
    (true, "insufficient_energy")

/-- `EVManager.evaluate`; the Python default `timeout_hours` of
`is_timeout_reached` is `EV_CHARGE_TIMEOUT_HOURS`, passed explicitly. The
`old_value` argument is unused by the source body and is kept for shape. -/
def EVManager.evaluate (new_value : ℚ) (old_value : ℚ) (current_time : ℕ)
    (now : ℚ) (timer_start : Option ℚ)
    (energy_balance : EnergyBalance) : EVDecision :=
  let value := EVManager.validate_value new_value
  let in_window := EVManager.is_in_charging_window current_time
  if !in_window then
    { result := EVSetResult.SAVED
      reason := "outside_charging_window"
      value := value
      bypass_should_activate := false
      bypass_reason := "outside_window"
      energy_balance := none
      is_timeout := false }
  else if value = 0 then
    { result := EVSetResult.RESET
      reason := "ev_set_to_zero"
      value := 0
      bypass_should_activate := false
      bypass_reason := "ev_reset"
      energy_balance := none
      is_timeout := false }
  else
    let is_timeout := EVManager.is_timeout_reached timer_start now
      EV_CHARGE_TIMEOUT_HOURS
    let bypass := EVManager.should_activate_bypass energy_balance is_timeout
    { result := EVSetResult.PROCESSED
      reason := "in_charging_window"
      value := value
      bypass_should_activate := bypass.1
      bypass_reason := bypass.2
      energy_balance := some energy_balance
      is_timeout := is_timeout }

/-- C3: outside the half-open charging window [00:00, 07:00) the decision is
SAVED with bypass off and reason "outside_charging_window", independent of
the balance, the timer and the value; 00:00 itself is inside the window and
07:00 itself is outside. -/
theorem evaluate_outside_window (v ov : ℚ) (t : ℕ) (now : ℚ)
    (ts : Option ℚ) (eb : EnergyBalance)
    (h : ¬(CHARGING_WINDOW_START ≤ t ∧ t < CHARGING_WINDOW_END)) :
    ((EVManager.evaluate v ov t now ts eb).result = EVSetResult.SAVED ∧
      (EVManager.evaluate v ov t now ts eb).bypass_should_activate = false ∧
      (EVManager.evaluate v ov t now ts eb).reason = "outside_charging_window") ∧
    EVManager.is_in_charging_window CHARGING_WINDOW_START = true ∧
    EVManager.is_in_charging_window CHARGING_WINDOW_END = false := by
  have hw : EVManager.is_in_charging_window t = false := by
    simp only [EVManager.is_in_charging_window, Bool.and_eq_false_iff,
      decide_eq_false_iff_not, not_le, not_lt]
    rcases Decidable.not_and_iff_or_not.mp h with h1 | h1
    · exact Or.inl (Nat.lt_of_not_le h1)
    · exact Or.inr (Nat.le_of_not_lt h1)
  refine ⟨?_, by decide, by decide⟩
  simp [EVManager.evaluate, hw]

/-- Witness for C3 at 07:00 sharp (the window end, outside the window). -/
theorem evaluate_outside_window_witness :
    (¬(CHARGING_WINDOW_START ≤ 25200 ∧ 25200 < CHARGING_WINDOW_END)) ∧
    (((EVManager.evaluate 10 0 25200 0 none
          (ChargePlanner.calculate_energy_balance 1 1 1 1 (23/20))).result =
        EVSetResult.SAVED ∧
      (EVManager.evaluate 10 0 25200 0 none
          (ChargePlanner.calculate_energy_balance 1 1 1 1 (23/20))).bypass_should_activate =
        false ∧
      (EVManager.evaluate 10 0 25200 0 none
          (ChargePlanner.calculate_energy_balance 1 1 1 1 (23/20))).reason =
        "outside_charging_window") ∧
    EVManager.is_in_charging_window CHARGING_WINDOW_START = true ∧
    EVManager.is_in_charging_window CHARGING_WINDOW_END = false) :=
  ⟨by decide,
    evaluate_outside_window 10 0 25200 0 none
      (ChargePlanner.calculate_energy_balance 1 1 1 1 (23/20)) (by decide)⟩

/-- C4: bypass is off whenever the timeout has been reached or the supplied
balance is sufficient, and on exactly when the decision is PROCESSED without
timeout and the balance is insufficient; the bypass reasons are "timeout",
"sufficient_energy" and "insufficient_energy" in the respective cases. -/
theorem evaluate_bypass_invariant (v ov : ℚ) (t : ℕ) (now : ℚ)
    (ts : Option ℚ) (eb : EnergyBalance) :
    (EVManager.is_timeout_reached ts now EV_CHARGE_TIMEOUT_HOURS = true →
      (EVManager.evaluate v ov t now ts eb).bypass_should_activate = false) ∧
    (eb.sufficient = true →
      (EVManager.evaluate v ov t now ts eb).bypass_should_activate = false) ∧
    ((EVManager.evaluate v ov t now ts eb).bypass_should_activate = true ↔
      ((EVManager.evaluate v ov t now ts eb).result = EVSetResult.PROCESSED ∧
        (EVManager.evaluate v ov t now ts eb).is_timeout = false ∧
        eb.sufficient = false)) ∧
    ((EVManager.evaluate v ov t now ts eb).result = EVSetResult.PROCESSED →
      (EVManager.evaluate v ov t now ts eb).is_timeout = true →
      (EVManager.evaluate v ov t now ts eb).bypass_reason = "timeout") ∧
    ((EVManager.evaluate v ov t now ts eb).result = EVSetResult.PROCESSED →
      (EVManager.evaluate v ov t now ts eb).is_timeout = false →
      eb.sufficient = true →
      (EVManager.evaluate v ov t now ts eb).bypass_reason = "sufficient_energy") ∧
    ((EVManager.evaluate v ov t now ts eb).bypass_should_activate = true →
      (EVManager.evaluate v ov t now ts eb).bypass_reason = "insufficient_energy") := by
  unfold EVManager.evaluate EVManager.should_activate_bypass
  cases hw : EVManager.is_in_charging_window t
  · simp
  · by_cases hv : EVManager.validate_value v = 0
    · simp [hv]
    · cases hto : EVManager.is_timeout_reached ts now EV_CHARGE_TIMEOUT_HOURS
      · cases hs : eb.sufficient
        · simp [hv, hs]
        · simp [hv, hs]
      · simp [hv]

/-- Witness for C4: inside the window with a running expired timer the
bypass is off with reason "timeout". -/
theorem evaluate_bypass_invariant_witness :
    EVManager.is_timeout_reached (some 0) 21600 EV_CHARGE_TIMEOUT_HOURS = true ∧
    (EVManager.evaluate 10 0 3600 21600 (some 0)
        (ChargePlanner.calculate_energy_balance 0 0 10 10 (23/20))).bypass_should_activate =
      false :=
  ⟨by norm_num [EVManager.is_timeout_reached, EV_CHARGE_TIMEOUT_HOURS],
    (evaluate_bypass_invariant 10 0 3600 21600 (some 0)
      (ChargePlanner.calculate_energy_balance 0 0 10 10 (23/20))).1
      (by norm_num [EVManager.is_timeout_reached, EV_CHARGE_TIMEOUT_HOURS])⟩

/-! ### `domain/forecaster.py` -/

/-- `HISTORY_DAYS = 21`. -/
def HISTORY_DAYS : ℕ := 21

/-- `ConsumptionRecord` from `domain/forecaster.py`; the history entries
stored by the forecaster are dictionaries with the same three fields and are
modelled by the same structure. The ISO date string is modelled as a day
ordinal (see the module header). -/
structure ConsumptionRecord where
  date : ℤ
  weekday : ℕ
  consumption_kwh : ℚ
deriving Repr, DecidableEq

/-- The mutable state of a `ConsumptionForecaster` instance. The weekday
cache (`_weekday_cache`, a dict from weekday 0-6 to the average) is
modelled as an optional list of the seven averages. -/
structure ForecasterState where
  history : List ConsumptionRecord
  current_day_kwh : ℚ
  last_reading_time : Option ℚ
  last_reading_value : Option ℚ
  weekday_cache : Option (List ℚ)
  cache_valid : Bool
deriving Repr, DecidableEq

/-- A power reading argument: a finite float value, or a non-finite float
(NaN or an infinity, rejected by `math.isfinite`). -/
inductive PowerReading where
  | finite (watts : ℚ)
  | nonFinite
deriving Repr, DecidableEq

/-- `ConsumptionForecaster.add_power_reading`, returning the updated state.
In the integration branch the Python code reads `self._last_reading_value`,
which is always set whenever `self._last_reading_time` is (both are written
together); `Option.getD` stands for that read. -/
def ConsumptionForecaster.add_power_reading (s : ForecasterState)
    (power : PowerReading) (now : ℚ) : ForecasterState :=
  match power with
  | PowerReading.nonFinite => s
  | PowerReading.finite w =>
    let power_watts := max 0 (min 100000 w)
    match s.last_reading_time with
    | none =>
      { s with last_reading_time := some now
               last_reading_value := some power_watts }
    | some t =>
      let time_diff_hours := (now - t) / 3600
      if time_diff_hours ≤ 0 ∨ time_diff_hours > 1 then
        { s with last_reading_time := some now
                 last_reading_value := some power_watts }
      else
        let avg_power := (s.last_reading_value.getD 0 + power_watts) / 2
        let energy_kwh := avg_power * time_diff_hours / 1000
        { s with current_day_kwh := s.current_day_kwh + energy_kwh
                 last_reading_time := some now
                 last_reading_value := some power_watts }

/-- The sort key used by `close_day` pruning: ascending date. -/
def recDateLe (a b : ConsumptionRecord) : Prop :=
  a.date ≤ b.date

instance : DecidableRel recDateLe := fun a b => inferInstanceAs (Decidable (a.date ≤ b.date))

instance : IsTotal ConsumptionRecord recDateLe :=
  ⟨fun a b => le_total a.date b.date⟩

instance : IsTrans ConsumptionRecord recDateLe :=
  ⟨fun _ _ _ h1 h2 => le_trans h1 h2⟩

/-- `ConsumptionForecaster.close_day`, returning the updated state and the
new record. `now` is the day ordinal of the current datetime; yesterday is
`now - 1`, whose weekday is `(now - 1) % 7` (day 0 a Monday). Python sorts
the pruned history with a stable sort by date and keeps the last
`HISTORY_DAYS` entries; insertion sort is the same stable sort. -/
def ConsumptionForecaster.close_day (s : ForecasterState) (now : ℤ) :
    ForecasterState × ConsumptionRecord :=
  let yesterday := now - 1
  let record : ConsumptionRecord :=
    { date := yesterday
      weekday := (yesterday % 7).toNat
      consumption_kwh := s.current_day_kwh }
  let appended := s.history ++ [record]
  let pruned :=
    if HISTORY_DAYS < appended.length then
      (appended.insertionSort recDateLe).drop (appended.length - HISTORY_DAYS)
    else appended
  ({ history := pruned
     current_day_kwh := 0
     last_reading_time := none
     last_reading_value := none
     weekday_cache := none
     cache_valid := false }, record)

/-- Modelled from the spec: `delete_record(date)` removes one history entry
by date if present, invalidates the weekday-average cache, and returns
whether a deletion occurred. The repository's `ConsumptionForecaster` does
not define this method even though `coordinator.py` calls
`self.forecaster.delete_record(date_str)`; only the caller is in the source,
so the body below follows the spec's words (remove the one matching entry,
invalidate the cache, report whether something was deleted). -/
def ConsumptionForecaster.delete_record (s : ForecasterState) (d : ℤ) :
    ForecasterState × Bool :=
  if s.history.any (fun r => decide (r.date = d)) then
    ({ s with history := s.history.eraseP (fun r => decide (r.date = d))
              weekday_cache := none
              cache_valid := false }, true)
  else (s, false)

/-- C5: a non-finite reading is ignored entirely; a finite reading is
clamped to [0, 100000] W and then either recorded without integration (first
reading), recorded without integration (elapsed ≤ 0 or > 1 hour), or
integrated trapezoidally into the day accumulator. -/
theorem add_power_reading_spec (s : ForecasterState) (w nowt : ℚ) :
    (ConsumptionForecaster.add_power_reading s PowerReading.nonFinite nowt = s) ∧
    (s.last_reading_time = none →
      ConsumptionForecaster.add_power_reading s (PowerReading.finite w) nowt =
        { s with last_reading_time := some nowt
                 last_reading_value := some (max 0 (min 100000 w)) }) ∧
    (∀ t v, s.last_reading_time = some t → s.last_reading_value = some v →
      (((nowt - t) / 3600 ≤ 0 ∨ (nowt - t) / 3600 > 1) →
        ConsumptionForecaster.add_power_reading s (PowerReading.finite w) nowt =
          { s with last_reading_time := some nowt
                   last_reading_value := some (max 0 (min 100000 w)) }) ∧
      (¬((nowt - t) / 3600 ≤ 0 ∨ (nowt - t) / 3600 > 1) →
        ConsumptionForecaster.add_power_reading s (PowerReading.finite w) nowt =
          { s with
              current_day_kwh := s.current_day_kwh +
                (v + max 0 (min 100000 w)) / 2 * ((nowt - t) / 3600) / 1000
              last_reading_time := some nowt
              last_reading_value := some (max 0 (min 100000 w)) })) := by
  refine ⟨rfl, ?_, ?_⟩
  · intro h
    simp [ConsumptionForecaster.add_power_reading, h]
  · intro t v ht hv
    constructor
    · intro hd
      simp [ConsumptionForecaster.add_power_reading, ht, if_pos, hd]
    · intro hd
      simp [ConsumptionForecaster.add_power_reading, ht, hv, if_neg, hd]

/-- Witness for C5: a 1000 W reading followed half an hour later by a 2000 W
reading integrates 0.75 kWh. -/
theorem add_power_reading_spec_witness :
    (¬(((1800:ℚ) - 0) / 3600 ≤ 0 ∨ ((1800:ℚ) - 0) / 3600 > 1)) ∧
    ConsumptionForecaster.add_power_reading
        ⟨[], 0, some 0, some 1000, none, false⟩ (PowerReading.finite 2000) 1800 =
      { (⟨[], 0, some 0, some 1000, none, false⟩ : ForecasterState) with
          current_day_kwh := (0:ℚ) +
            (1000 + max 0 (min 100000 2000)) / 2 * (((1800:ℚ) - 0) / 3600) / 1000
          last_reading_time := some 1800
          last_reading_value := some (max 0 (min 100000 2000)) } :=
  ⟨by norm_num,
    ((add_power_reading_spec ⟨[], 0, some 0, some 1000, none, false⟩ 2000
      1800).2.2 0 1000 rfl rfl).2 (by norm_num)⟩

/-- C6: `delete_record` removes exactly the first history entry whose date
matches (leaving everything before it unmatched and everything else intact),
invalidates the weekday-average cache, keeps the day accumulator, and
reports whether a deletion occurred; with no matching entry the state is
returned unchanged with `false`. -/
theorem delete_record_spec (s : ForecasterState) (d : ℤ) :
    ((∀ r ∈ s.history, r.date ≠ d) →
      ConsumptionForecaster.delete_record s d = (s, false)) ∧
    (∀ r0 ∈ s.history, r0.date = d →
      (ConsumptionForecaster.delete_record s d).2 = true ∧
      (ConsumptionForecaster.delete_record s d).1.weekday_cache = none ∧
      (ConsumptionForecaster.delete_record s d).1.cache_valid = false ∧
      (ConsumptionForecaster.delete_record s d).1.current_day_kwh =
        s.current_day_kwh ∧
      ∃ a l1 l2, a.date = d ∧ (∀ b ∈ l1, b.date ≠ d) ∧
        s.history = l1 ++ a :: l2 ∧
        (ConsumptionForecaster.delete_record s d).1.history = l1 ++ l2) := by
  constructor
  · intro hnone
    have hany : s.history.any (fun r => decide (r.date = d)) = false := by
      simp only [List.any_eq_false, decide_eq_true_eq]
      exact hnone
    simp [ConsumptionForecaster.delete_record, hany]
  · intro r0 hr0 hd0
    have hany : s.history.any (fun r => decide (r.date = d)) = true :=
      List.any_eq_true.mpr ⟨r0, hr0, by simp [hd0]⟩
    obtain ⟨a, l1, l2, hl1, hpa, hsplit, herase⟩ :=
      @List.exists_of_eraseP ConsumptionRecord
        (fun r => decide (r.date = d)) s.history r0 hr0 (by simp [hd0])
    refine ⟨by simp [ConsumptionForecaster.delete_record, hany],
      by simp [ConsumptionForecaster.delete_record, hany],
      by simp [ConsumptionForecaster.delete_record, hany],
      by simp [ConsumptionForecaster.delete_record, hany],
      a, l1, l2, by simpa using hpa, ?_, hsplit, ?_⟩
    · intro b hb
      simpa using hl1 b hb
    · simp [ConsumptionForecaster.delete_record, hany, herase]

/-- Witness for C6: deleting the date-5 record from a two-record history
with a valid cache. -/
theorem delete_record_spec_witness :
    (ConsumptionForecaster.delete_record
        ⟨[⟨4, 3, 7⟩, ⟨5, 4, 2⟩], 1, none, none,
          some [0, 0, 0, 7, 2, 0, 0], true⟩ 5).2 = true ∧
    (ConsumptionForecaster.delete_record
        ⟨[⟨4, 3, 7⟩, ⟨5, 4, 2⟩], 1, none, none,
          some [0, 0, 0, 7, 2, 0, 0], true⟩ 5).1.weekday_cache = none ∧
    (ConsumptionForecaster.delete_record
        ⟨[⟨4, 3, 7⟩, ⟨5, 4, 2⟩], 1, none, none,
          some [0, 0, 0, 7, 2, 0, 0], true⟩ 5).1.cache_valid = false ∧
    (ConsumptionForecaster.delete_record
        ⟨[⟨4, 3, 7⟩, ⟨5, 4, 2⟩], 1, none, none,
          some [0, 0, 0, 7, 2, 0, 0], true⟩ 5).1.current_day_kwh = 1 ∧
    ∃ a l1 l2, a.date = 5 ∧ (∀ b ∈ l1, b.date ≠ 5) ∧
      ([⟨4, 3, 7⟩, ⟨5, 4, 2⟩] : List ConsumptionRecord) = l1 ++ a :: l2 ∧
      (ConsumptionForecaster.delete_record
        ⟨[⟨4, 3, 7⟩, ⟨5, 4, 2⟩], 1, none, none,
          some [0, 0, 0, 7, 2, 0, 0], true⟩ 5).1.history = l1 ++ l2 :=
  (delete_record_spec
      ⟨[⟨4, 3, 7⟩, ⟨5, 4, 2⟩], 1, none, none,
        some [0, 0, 0, 7, 2, 0, 0], true⟩ 5).2
    ⟨5, 4, 2⟩ (by simp) rfl

/-- Sort-then-keep-the-tail facts used for the `close_day` pruning: the kept
tail has the expected length, is sorted, and together with the dropped head
is a permutation of the input, with every dropped record dated no later than
every kept record. -/
theorem prune_facts (l : List ConsumptionRecord) (k : ℕ) (hk : k ≤ l.length) :
    ((l.insertionSort recDateLe).drop k).length = l.length - k ∧
    List.Pairwise recDateLe ((l.insertionSort recDateLe).drop k) ∧
    ((l.insertionSort recDateLe).take k ++
        (l.insertionSort recDateLe).drop k).Perm l ∧
    ∀ a ∈ (l.insertionSort recDateLe).take k,
      ∀ b ∈ (l.insertionSort recDateLe).drop k, recDateLe a b := by
  have hperm := List.perm_insertionSort recDateLe l
  have hsort := List.sorted_insertionSort recDateLe l
  have hsplit :
      List.Pairwise recDateLe ((l.insertionSort recDateLe).take k ++
        (l.insertionSort recDateLe).drop k) := by
    rw [List.take_append_drop]
    exact hsort
  refine ⟨?_, ?_, ?_, (List.pairwise_append.mp hsplit).2.2⟩
  · rw [List.length_drop, hperm.length_eq]
  · exact List.Pairwise.sublist (List.drop_sublist k _) hsort
  · rw [List.take_append_drop]
    exact hperm

/-- C7: after `close_day` the history holds at most `HISTORY_DAYS = 21`
records; when the appended history exceeded 21 the retained records are 21
in number, in ascending date order, and no dropped record is dated after a
retained one; the day accumulator and last-reading pointers are reset and
the returned record carries yesterday's date, yesterday's weekday and the
accumulated consumption. -/
theorem close_day_spec (s : ForecasterState) (now : ℤ) :
    (ConsumptionForecaster.close_day s now).1.history.length ≤ HISTORY_DAYS ∧
    (ConsumptionForecaster.close_day s now).2 =
      { date := now - 1
        weekday := ((now - 1) % 7).toNat
        consumption_kwh := s.current_day_kwh } ∧
    (ConsumptionForecaster.close_day s now).1.current_day_kwh = 0 ∧
    (ConsumptionForecaster.close_day s now).1.last_reading_time = none ∧
    (ConsumptionForecaster.close_day s now).1.last_reading_value = none ∧
    (HISTORY_DAYS < s.history.length + 1 →
      (ConsumptionForecaster.close_day s now).1.history.length = HISTORY_DAYS ∧
      List.Pairwise recDateLe (ConsumptionForecaster.close_day s now).1.history ∧
      ∃ dropped,
        (dropped ++ (ConsumptionForecaster.close_day s now).1.history).Perm
          (s.history ++ [(ConsumptionForecaster.close_day s now).2]) ∧
        ∀ a ∈ dropped,
          ∀ b ∈ (ConsumptionForecaster.close_day s now).1.history,
            recDateLe a b) := by
  have hlenapp :
      (s.history ++
        [({ date := now - 1, weekday := ((now - 1) % 7).toNat,
            consumption_kwh := s.current_day_kwh } : ConsumptionRecord)]).length =
      s.history.length + 1 := by
    simp
  by_cases hbig : HISTORY_DAYS < s.history.length + 1
  · have hk : s.history.length + 1 - HISTORY_DAYS ≤
        (s.history ++
          [({ date := now - 1, weekday := ((now - 1) % 7).toNat,
              consumption_kwh := s.current_day_kwh } : ConsumptionRecord)]).length := by
      rw [hlenapp]
      omega
    obtain ⟨hl, hp, hperm, hle⟩ := prune_facts
      (s.history ++
        [({ date := now - 1, weekday := ((now - 1) % 7).toNat,
            consumption_kwh := s.current_day_kwh } : ConsumptionRecord)])
      (s.history.length + 1 - HISTORY_DAYS) hk
    have hist_eq :
        (ConsumptionForecaster.close_day s now).1.history =
          ((s.history ++
            [({ date := now - 1, weekday := ((now - 1) % 7).toNat,
                consumption_kwh := s.current_day_kwh } : ConsumptionRecord)]).insertionSort
            recDateLe).drop (s.history.length + 1 - HISTORY_DAYS) := by
      simp only [ConsumptionForecaster.close_day, hlenapp]
      rw [if_pos hbig]
    rw [hlenapp] at hl
    refine ⟨?_, rfl, rfl, rfl, rfl, ?_⟩
    · rw [hist_eq, hl]
      omega
    · intro _
      refine ⟨by rw [hist_eq, hl]; omega, by rw [hist_eq]; exact hp, ?_⟩
      refine ⟨((s.history ++
          [({ date := now - 1, weekday := ((now - 1) % 7).toNat,
              consumption_kwh := s.current_day_kwh } : ConsumptionRecord)]).insertionSort
          recDateLe).take (s.history.length + 1 - HISTORY_DAYS), ?_, ?_⟩
      · rw [hist_eq]
        exact hperm
      · intro a ha b hb
        rw [hist_eq] at hb
        exact hle a ha b hb
  · have hist_eq :
        (ConsumptionForecaster.close_day s now).1.history =
          s.history ++
            [({ date := now - 1, weekday := ((now - 1) % 7).toNat,
                consumption_kwh := s.current_day_kwh } : ConsumptionRecord)] := by
      simp only [ConsumptionForecaster.close_day, hlenapp]
      rw [if_neg hbig]
    refine ⟨?_, rfl, rfl, rfl, rfl, fun h => absurd h hbig⟩
    rw [hist_eq, hlenapp]
    omega

/-- A forecaster state holding a full 21-day history, used to exercise the
pruning branch of `close_day`. -/
def fs21 : ForecasterState :=
  { history := (List.range 21).map
      (fun (k : ℕ) => { date := (k : ℤ), weekday := k % 7, consumption_kwh := 1 })
    current_day_kwh := 5
    last_reading_time := none
    last_reading_value := none
    weekday_cache := none
    cache_valid := false }

/-- Witness for C7: closing a day on a full 21-record history prunes back to
21 sorted records. -/
theorem close_day_spec_witness :
    HISTORY_DAYS < fs21.history.length + 1 ∧
    ((ConsumptionForecaster.close_day fs21 100).1.history.length = HISTORY_DAYS ∧
      List.Pairwise recDateLe (ConsumptionForecaster.close_day fs21 100).1.history ∧
      ∃ dropped,
        (dropped ++ (ConsumptionForecaster.close_day fs21 100).1.history).Perm
          (fs21.history ++ [(ConsumptionForecaster.close_day fs21 100).2]) ∧
        ∀ a ∈ dropped,
          ∀ b ∈ (ConsumptionForecaster.close_day fs21 100).1.history,
            recDateLe a b) :=
  ⟨by decide, (close_day_spec fs21 100).2.2.2.2.2 (by decide)⟩

/-! ### `domain/savings_calculator.py` -/

/-- A calendar date as used by the savings calculator; its ISO string
compares lexicographically, i.e. like the year/month/day triple. -/
structure SDate where
  year : ℤ
  month : ℕ
  day : ℕ
deriving Repr, DecidableEq

/-- Lexicographic comparison of dates, mirroring comparison of the ISO
strings `"YYYY-MM-DD"`. -/
def SDate.le (a b : SDate) : Bool :=
  decide (a.year < b.year) ||
    (decide (a.year = b.year) &&
      (decide (a.month < b.month) ||
        (decide (a.month = b.month) && decide (a.day ≤ b.day))))

/-- The month token `charge_date.strftime("%Y-%m")`, as the year/month pair;
`none` stands for the initial empty string `""` (no real month formats to
the empty string). -/
def SDate.monthToken (d : SDate) : Option (ℤ × ℕ) :=
  some (d.year, d.month)

/-- `SavingsRecord` from `domain/savings_calculator.py`; the history entries
(`record.to_dict()`) have exactly these fields and are modelled by the same
structure. -/
structure SavingsRecord where
  date : SDate
  charged_kwh : ℚ
  offpeak_cost : ℚ
  peak_cost : ℚ
  savings : ℚ
deriving Repr, DecidableEq

/-- `SavingsState` from `domain/savings_calculator.py`. -/
structure SavingsState where
  total_charged_kwh : ℚ
  total_savings_eur : ℚ
  total_cost_eur : ℚ
  theoretical_cost_eur : ℚ
  monthly_charged_kwh : ℚ
  monthly_savings_eur : ℚ
  current_month : Option (ℤ × ℕ)
  lifetime_charged_kwh : ℚ
  lifetime_savings_eur : ℚ
  history : List SavingsRecord
deriving Repr, DecidableEq

/-- The dataclass defaults of `SavingsState` (all accumulators zero, empty
month token, empty history). -/
def SavingsState.init : SavingsState :=
  { total_charged_kwh := 0
    total_savings_eur := 0
    total_cost_eur := 0
    theoretical_cost_eur := 0
    monthly_charged_kwh := 0
    monthly_savings_eur := 0
    current_month := none
    lifetime_charged_kwh := 0
    lifetime_savings_eur := 0
    history := [] }

/-- The dictionary produced by `SavingsState.to_dict` and consumed by
`SavingsState.from_dict`; every key may be absent in a general input, hence
the `Option` fields. -/
structure SavingsStateDict where
  total_charged_kwh : Option ℚ
  total_savings_eur : Option ℚ
  total_cost_eur : Option ℚ
  theoretical_cost_eur : Option ℚ
  monthly_charged_kwh : Option ℚ
  monthly_savings_eur : Option ℚ
  current_month : Option (Option (ℤ × ℕ))
  lifetime_charged_kwh : Option ℚ
  lifetime_savings_eur : Option ℚ
  history : Option (List SavingsRecord)
deriving Repr, DecidableEq

/-- `SavingsState.to_dict`: every field is emitted; the history is emitted
as its last 30 entries (`self.history[-30:]`). -/
def SavingsState.to_dict (s : SavingsState) : SavingsStateDict :=
  { total_charged_kwh := some s.total_charged_kwh
    total_savings_eur := some s.total_savings_eur
    total_cost_eur := some s.total_cost_eur
    theoretical_cost_eur := some s.theoretical_cost_eur
    monthly_charged_kwh := some s.monthly_charged_kwh
    monthly_savings_eur := some s.monthly_savings_eur
    current_month := some s.current_month
    lifetime_charged_kwh := some s.lifetime_charged_kwh
    lifetime_savings_eur := some s.lifetime_savings_eur
    history := some (s.history.drop (s.history.length - 30)) }

/-- `SavingsState.from_dict`: `data.get(key, default)` for every field. -/
def SavingsState.from_dict (d : SavingsStateDict) : SavingsState :=
  { total_charged_kwh := d.total_charged_kwh.getD 0
    total_savings_eur := d.total_savings_eur.getD 0
    total_cost_eur := d.total_cost_eur.getD 0
    theoretical_cost_eur := d.theoretical_cost_eur.getD 0
    monthly_charged_kwh := d.monthly_charged_kwh.getD 0
    monthly_savings_eur := d.monthly_savings_eur.getD 0
    current_month := d.current_month.getD none
    lifetime_charged_kwh := d.lifetime_charged_kwh.getD 0
    lifetime_savings_eur := d.lifetime_savings_eur.getD 0
    history := d.history.getD [] }

/-- `SavingsCalculator`: the six pricing-configuration attributes plus the
accumulated state. -/
structure SavingsCalculator where
  price_peak : ℚ
  price_offpeak : ℚ
  price_f1 : ℚ
  price_f2 : ℚ
  price_f3 : ℚ
  pricing_mode : String
  state : SavingsState
deriving Repr, DecidableEq

/-- `SavingsCalculator.get_night_rate`. -/
def SavingsCalculator.get_night_rate (c : SavingsCalculator) : ℚ :=
  if c.pricing_mode = "three_tier" then c.price_f3 else c.price_offpeak

/-- `SavingsCalculator.get_day_rate`: the fixed 11-hour/5-hour weighted
average of F1/F2 in three-tier mode, the plain peak rate otherwise. (The
`charge_time` parameter of the source is unused by its body.) -/
def SavingsCalculator.get_day_rate (c : SavingsCalculator) : ℚ :=
  if c.pricing_mode = "three_tier" then
    (11 * c.price_f1 + 5 * c.price_f2) / 16
  else c.price_peak

/-- Python `round(x, 2)` on rationals. Python rounds halves to even while
`round` here rounds halves up; the two agree except on exact half-cent
values, and no theorem below depends on the tie branch (both sides of every
rounding equation apply the same function). -/
def round2 (x : ℚ) : ℚ :=
  (round (x * 100) : ℚ) / 100

/-- `SavingsCalculator._update_state`. The pruning cutoff
`(date.today() - timedelta(days=30)).isoformat()` depends on the ambient
clock, so it is passed as the explicit `cutoff` argument. -/
def SavingsCalculator.update_state (c : SavingsCalculator)
    (record : SavingsRecord) (month_tok : Option (ℤ × ℕ))
    (cutoff : SDate) : SavingsCalculator :=
  let st0 := c.state
  let st1 :=
    if st0.current_month ≠ month_tok then
      { st0 with monthly_charged_kwh := 0
                 monthly_savings_eur := 0
                 current_month := month_tok }
    else st0
  let st2 :=
    { st1 with
        total_charged_kwh := st1.total_charged_kwh + record.charged_kwh
        total_savings_eur := st1.total_savings_eur + record.savings
        total_cost_eur := st1.total_cost_eur + record.offpeak_cost
        theoretical_cost_eur := st1.theoretical_cost_eur + record.peak_cost
        monthly_charged_kwh := st1.monthly_charged_kwh + record.charged_kwh
        monthly_savings_eur := st1.monthly_savings_eur + record.savings
        lifetime_charged_kwh := st1.lifetime_charged_kwh + record.charged_kwh
        lifetime_savings_eur := st1.lifetime_savings_eur + record.savings
        history := (st1.history ++ [record]).filter
          (fun h => SDate.le cutoff h.date) }
  { c with state := st2 }

/-- `SavingsCalculator.record_charge_session`, returning the updated
calculator and the new record. `charge_date` is the (caller-supplied or
defaulted) session date; `cutoff` models the 30-day pruning boundary drawn
from the ambient clock (see `update_state`). -/
def SavingsCalculator.record_charge_session (c : SavingsCalculator)
    (charged_kwh : ℚ) (charge_date : SDate) (cutoff : SDate) :
    SavingsCalculator × SavingsRecord :=
  let night_rate := c.get_night_rate
  let day_rate := c.get_day_rate
  let offpeak_cost := charged_kwh * night_rate
  let peak_cost := charged_kwh * day_rate
  let savings := peak_cost - offpeak_cost
  let record : SavingsRecord :=
    { date := charge_date
      charged_kwh := charged_kwh
      offpeak_cost := round2 offpeak_cost
      peak_cost := round2 peak_cost
      savings := round2 savings }
  (c.update_state record charge_date.monthToken cutoff, record)

/-- `SavingsCalculator.to_dict`. -/
structure SavingsCalculatorDict where
  state : Option SavingsStateDict
  price_peak : Option ℚ
  price_offpeak : Option ℚ
  price_f1 : Option ℚ
  price_f2 : Option ℚ
  price_f3 : Option ℚ
  pricing_mode : Option String
deriving Repr, DecidableEq

/-- `SavingsCalculator.to_dict`: state dictionary plus the six pricing
fields. -/
def SavingsCalculator.to_dict (c : SavingsCalculator) : SavingsCalculatorDict :=
  { state := some c.state.to_dict
    price_peak := some c.price_peak
    price_offpeak := some c.price_offpeak
    price_f1 := some c.price_f1
    price_f2 := some c.price_f2
    price_f3 := some c.price_f3
    pricing_mode := some c.pricing_mode }

/-- `SavingsCalculator.from_dict`: constructor defaults for missing pricing
keys, then the stored state when the `"state"` key is present. -/
def SavingsCalculator.from_dict (d : SavingsCalculatorDict) : SavingsCalculator :=
  { price_peak := d.price_peak.getD 0.25
    price_offpeak := d.price_offpeak.getD 0.12
    price_f1 := d.price_f1.getD 0.25
    price_f2 := d.price_f2.getD 0.20
    price_f3 := d.price_f3.getD 0.12
    pricing_mode := d.pricing_mode.getD "two_tier"
    state :=
      match d.state with
      | some sd => SavingsState.from_dict sd
      | none => SavingsState.init }

/-- C8: the record returned by `record_charge_session` prices the charged
energy at the night rate, the theoretical purchase at the day rate, and the
savings at their difference, each rounded to two decimals, where the night
rate is F3 in three-tier mode and off-peak otherwise, and the day rate is
the 11/5-weighted F1/F2 average in three-tier mode and peak otherwise. -/
theorem record_charge_session_spec (c : SavingsCalculator) (kwh : ℚ)
    (d cutoff : SDate) :
    ((c.record_charge_session kwh d cutoff).2.offpeak_cost =
      round2 (kwh * c.get_night_rate)) ∧
    ((c.record_charge_session kwh d cutoff).2.peak_cost =
      round2 (kwh * c.get_day_rate)) ∧
    ((c.record_charge_session kwh d cutoff).2.savings =
      round2 (kwh * (c.get_day_rate - c.get_night_rate))) ∧
    (c.pricing_mode = "three_tier" →
      c.get_night_rate = c.price_f3 ∧
        c.get_day_rate = (11 * c.price_f1 + 5 * c.price_f2) / 16) ∧
    (c.pricing_mode ≠ "three_tier" →
      c.get_night_rate = c.price_offpeak ∧ c.get_day_rate = c.price_peak) := by
  refine ⟨rfl, rfl, ?_, ?_, ?_⟩
  · show round2 (kwh * c.get_day_rate - kwh * c.get_night_rate) =
      round2 (kwh * (c.get_day_rate - c.get_night_rate))
    congr 1
    ring
  · intro h
    simp [SavingsCalculator.get_night_rate, SavingsCalculator.get_day_rate, h]
  · intro h
    simp [SavingsCalculator.get_night_rate, SavingsCalculator.get_day_rate, h]

/-- A three-tier calculator used to exercise `record_charge_session`. -/
def calcThreeTier : SavingsCalculator :=
  { price_peak := 0.25
    price_offpeak := 0.12
    price_f1 := 0.30
    price_f2 := 0.20
    price_f3 := 0.10
    pricing_mode := "three_tier"
    state := SavingsState.init }

/-- Witness for C8: a 10 kWh session on the three-tier calculator. -/
theorem record_charge_session_spec_witness :
    ((calcThreeTier.record_charge_session 10 ⟨2025, 10, 1⟩
        ⟨2025, 9, 1⟩).2.savings =
      round2 (10 * (calcThreeTier.get_day_rate - calcThreeTier.get_night_rate))) ∧
    calcThreeTier.pricing_mode = "three_tier" ∧
    calcThreeTier.get_night_rate = calcThreeTier.price_f3 ∧
    calcThreeTier.get_day_rate =
      (11 * calcThreeTier.price_f1 + 5 * calcThreeTier.price_f2) / 16 :=
  ⟨(record_charge_session_spec calcThreeTier 10 ⟨2025, 10, 1⟩ ⟨2025, 9, 1⟩).2.2.1,
    rfl,
    ((record_charge_session_spec calcThreeTier 10 ⟨2025, 10, 1⟩
      ⟨2025, 9, 1⟩).2.2.2.1 rfl).1,
    ((record_charge_session_spec calcThreeTier 10 ⟨2025, 10, 1⟩
      ⟨2025, 9, 1⟩).2.2.2.1 rfl).2⟩

/-- A calculator whose rolling history holds 31 entries (reachable by 31
`record_charge_session` calls within the last 30 days, e.g. several per
day): `to_dict` keeps only the last 30 of them. -/
def calc31 : SavingsCalculator :=
  { price_peak := 1
    price_offpeak := 2
    price_f1 := 3
    price_f2 := 4
    price_f3 := 5
    pricing_mode := "two_tier"
    state :=
      { total_charged_kwh := 31
        total_savings_eur := 0
        total_cost_eur := 0
        theoretical_cost_eur := 0
        monthly_charged_kwh := 31
        monthly_savings_eur := 0
        current_month := some (2025, 10)
        lifetime_charged_kwh := 31
        lifetime_savings_eur := 0
        history := (List.range 31).map
          (fun (k : ℕ) => { date := ⟨2025, 10, k⟩, charged_kwh := 1,
                            offpeak_cost := 2, peak_cost := 1, savings := 0 }) } }

/-- Counterexample to C9 as stated: on a state whose history holds 31
entries, `from_dict (to_dict c)` drops the oldest history entry, so the
round trip is not the identity. -/
theorem savings_roundtrip_counterexample :
    SavingsCalculator.from_dict (SavingsCalculator.to_dict calc31) ≠ calc31 := by
  intro h
  have hlen := congrArg (fun c => c.state.history.length) h
  simp [calc31, SavingsCalculator.from_dict, SavingsCalculator.to_dict,
    SavingsState.from_dict, SavingsState.to_dict] at hlen

/-- C9 (amended): for every state, `from_dict (to_dict c)` reproduces
exactly all six pricing fields, all accumulators and the month token; its
history is exactly the last 30 entries of the original history
(`history[-30:]`); hence the round trip is the identity whenever the
history holds at most 30 entries. -/
theorem savings_roundtrip (c : SavingsCalculator) :
    ((SavingsCalculator.from_dict (SavingsCalculator.to_dict c)).price_peak =
      c.price_peak) ∧
    ((SavingsCalculator.from_dict (SavingsCalculator.to_dict c)).price_offpeak =
      c.price_offpeak) ∧
    ((SavingsCalculator.from_dict (SavingsCalculator.to_dict c)).price_f1 =
      c.price_f1) ∧
    ((SavingsCalculator.from_dict (SavingsCalculator.to_dict c)).price_f2 =
      c.price_f2) ∧
    ((SavingsCalculator.from_dict (SavingsCalculator.to_dict c)).price_f3 =
      c.price_f3) ∧
    ((SavingsCalculator.from_dict (SavingsCalculator.to_dict c)).pricing_mode =
      c.pricing_mode) ∧
    ((SavingsCalculator.from_dict (SavingsCalculator.to_dict c)).state.total_charged_kwh =
      c.state.total_charged_kwh) ∧
    ((SavingsCalculator.from_dict (SavingsCalculator.to_dict c)).state.total_savings_eur =
      c.state.total_savings_eur) ∧
    ((SavingsCalculator.from_dict (SavingsCalculator.to_dict c)).state.total_cost_eur =
      c.state.total_cost_eur) ∧
    ((SavingsCalculator.from_dict (SavingsCalculator.to_dict c)).state.theoretical_cost_eur =
      c.state.theoretical_cost_eur) ∧
    ((SavingsCalculator.from_dict (SavingsCalculator.to_dict c)).state.monthly_charged_kwh =
      c.state.monthly_charged_kwh) ∧
    ((SavingsCalculator.from_dict (SavingsCalculator.to_dict c)).state.monthly_savings_eur =
      c.state.monthly_savings_eur) ∧
    ((SavingsCalculator.from_dict (SavingsCalculator.to_dict c)).state.current_month =
      c.state.current_month) ∧
    ((SavingsCalculator.from_dict (SavingsCalculator.to_dict c)).state.lifetime_charged_kwh =
      c.state.lifetime_charged_kwh) ∧
    ((SavingsCalculator.from_dict (SavingsCalculator.to_dict c)).state.lifetime_savings_eur =
      c.state.lifetime_savings_eur) ∧
    ((SavingsCalculator.from_dict (SavingsCalculator.to_dict c)).state.history =
      c.state.history.drop (c.state.history.length - 30)) ∧
    (c.state.history.length ≤ 30 →
      SavingsCalculator.from_dict (SavingsCalculator.to_dict c) = c) := by
  refine ⟨rfl, rfl, rfl, rfl, rfl, rfl, rfl, rfl, rfl, rfl, rfl, rfl, rfl,
    rfl, rfl, rfl, ?_⟩
  intro h
  obtain ⟨pp, po, f1, f2, f3, mode, st⟩ := c
  obtain ⟨a1, a2, a3, a4, a5, a6, cm, l1, l2, hist⟩ := st
  have hlen : hist.length ≤ 30 := by simpa using h
  have hz : hist.length - 30 = 0 := by omega
  simp [SavingsCalculator.to_dict, SavingsCalculator.from_dict,
    SavingsState.to_dict, SavingsState.from_dict, hz]

/-- A calculator with a one-entry history, exercising the identity case of
the round trip. -/
def calcOne : SavingsCalculator :=
  { price_peak := 1, price_offpeak := 2, price_f1 := 3, price_f2 := 4,
    price_f3 := 5, pricing_mode := "two_tier",
    state :=
      { total_charged_kwh := 1, total_savings_eur := 2, total_cost_eur := 3,
        theoretical_cost_eur := 4, monthly_charged_kwh := 5,
        monthly_savings_eur := 6, current_month := some (2025, 10),
        lifetime_charged_kwh := 7, lifetime_savings_eur := 8,
        history := [{ date := ⟨2025, 10, 1⟩, charged_kwh := 1,
                      offpeak_cost := 2, peak_cost := 1, savings := 0 }] } }

/-- Witness for the amended C9: on a one-entry history the round trip is
the identity. -/
theorem savings_roundtrip_witness :
    calcOne.state.history.length ≤ 30 ∧
    SavingsCalculator.from_dict (SavingsCalculator.to_dict calcOne) = calcOne := by
  have h := savings_roundtrip calcOne
  exact ⟨by decide,
    h.2.2.2.2.2.2.2.2.2.2.2.2.2.2.2.2 (by decide)⟩
